import Mathlib

/-!
Verification of the LiteratureSearch pipeline core.

This file shallowly embeds the parts of the repository that the claims are
about.  JSON numbers are represented exactly as mantissa times a power of
ten, which keeps every arithmetic step kernel-computable.

The embedded parts are:

* the dedupe-key computation (src/modules/normalization.py lines 107-111 and
  src/literature_flow.py lines 118-125);
* the smart pagination loop of the flow (src/literature_flow.py lines 61-143);
* the validator (src/modules/validation_tasks.py, validate_results);
* the Notion property builder (src/notion_utils.py, truncate_for_notion and
  build_notion_page_properties);
* the enrichment task (src/modules/enrichment.py, _extract_json_text,
  _load_response_json and ai_enrich_records, gemini provider path) together
  with the flow's quota handling (src/literature_flow.py lines 190-206).

Python strings are modelled as Lean strings; the helper functions prefixed
with py replicate the semantics of the corresponding Python str methods for
the inputs that occur here (ASCII text).  Machine integers do not overflow in
any of the embedded code paths, so Nat/Int/Rat are used directly.
-/

/-- Characters treated as whitespace by Python str.strip (ASCII subset). -/
def isPySpace (c : Char) : Bool :=
  c = ' ' || c = Char.ofNat 9 || c = Char.ofNat 10 || c = Char.ofNat 13 ||
  c = Char.ofNat 11 || c = Char.ofNat 12

/-- Drop leading Python whitespace from a character list. -/
def dropLeadingWs : List Char → List Char
  | [] => []
  | c :: rest => if isPySpace c then dropLeadingWs rest else c :: rest

/-- Python str.strip on a character list. -/
def pyStripList (l : List Char) : List Char :=
  ((dropLeadingWs (dropLeadingWs l).reverse)).reverse

/-- Python str.strip. -/
def pyStrip (s : String) : String := ⟨pyStripList s.data⟩

/-- Does the first list start with the second one?  (Python str.startswith.) -/
def listStartsWith : List Char → List Char → Bool
  | _, [] => true
  | [], _ :: _ => false
  | c :: rest, p :: ps => c = p && listStartsWith rest ps

/-- Python str.startswith. -/
def pyStartsWith (s pre : String) : Bool := listStartsWith s.data pre.data

/-- Python str.endswith. -/
def pyEndsWith (s suf : String) : Bool :=
  listStartsWith s.data.reverse suf.data.reverse

/-- Python s[n:] on code points. -/
def pyDropLeft (s : String) (n : Nat) : String := ⟨s.data.drop n⟩

/-- Python s[:-n] on code points (n greater than 0). -/
def pyDropRight (s : String) (n : Nat) : String :=
  ⟨s.data.take (s.data.length - n)⟩

/-- ASCII lower-casing of one character (Python str.lower on ASCII input). -/
def pyLowerChar (c : Char) : Char :=
  if 'A' ≤ c && c ≤ 'Z' then Char.ofNat (c.toNat + 32) else c

/-- Python str.lower (ASCII input). -/
def pyLower (s : String) : String := ⟨s.data.map pyLowerChar⟩

/-- Substring test on character lists (Python needle in hay). -/
def listContainsSub : List Char → List Char → Bool
  | [], needle => needle.isEmpty
  | c :: rest, needle =>
      listStartsWith (c :: rest) needle || listContainsSub rest needle

/-- Python needle in hay substring test. -/
def pyContains (hay needle : String) : Bool :=
  listContainsSub hay.data needle.data

/-- Python s.count(c) for a single character c. -/
def charCount (s : String) (c : Char) : Nat :=
  s.data.foldl (fun n x => if x = c then n + 1 else n) 0

/-- Helper of pySplitChar: split a character list at a separator character. -/
def splitCharAux (c : Char) : List Char → List Char → List (List Char)
  | [], acc => [acc.reverse]
  | x :: rest, acc =>
      if x = c then acc.reverse :: splitCharAux c rest []
      else splitCharAux c rest (x :: acc)

/-- Python s.split(c) for a single-character separator. -/
def pySplitChar (s : String) (c : Char) : List String :=
  (splitCharAux c s.data []).map (fun l => ⟨l⟩)

/-- Helper of pyReplaceChar on character lists. -/
def replaceCharList (c : Char) (rep : List Char) : List Char → List Char
  | [] => []
  | x :: rest =>
      if x = c then rep ++ replaceCharList c rep rest
      else x :: replaceCharList c rep rest

/-- Python s.replace(c, rep) for a single-character needle c. -/
def pyReplaceChar (s : String) (c : Char) (rep : String) : String :=
  ⟨replaceCharList c rep.data s.data⟩

/-- Python sep.join(parts). -/
def joinSep (sep : String) : List String → String
  | [] => ""
  | [x] => x
  | x :: rest => x ++ sep ++ joinSep sep rest

/-- Helper of dedupFirst carrying the set of already seen strings. -/
def dedupFirstAux (seen : List String) : List String → List String
  | [] => []
  | x :: rest =>
      if x ∈ seen then dedupFirstAux seen rest
      else x :: dedupFirstAux (x :: seen) rest

/-- Python list(dict.fromkeys(l)): deduplicate keeping first occurrences. -/
def dedupFirst (l : List String) : List String := dedupFirstAux [] l

/-- First value bound to a key in an association list (Python dict lookup;
the embedded dicts have unique keys). -/
def lookupStr {α : Type} (k : String) : List (String × α) → Option α
  | [] => none
  | p :: rest => if p.1 = k then some p.2 else lookupStr k rest

/-!
## Identity / dedupe key

src/modules/normalization.py lines 107-111 compute, for every normalized
record, dedupe_key = rec.get("DOI") or f"PMID:{pmid}" and the smart
pagination loop in src/literature_flow.py line 125 computes the provisional
key of a summary item with the same formula, key = doi if doi else
f"PMID:{pmid}".  Python truthiness makes both fall back to the PMID form
exactly when the DOI is missing (None) or the empty string.
-/

/-- Dedupe key of a record, from its optional DOI and its PMID
(src/modules/normalization.py line 109 and src/literature_flow.py line 125). -/
def dedupe_key (doi : Option String) (pmid : String) : String :=
  match doi with
  | some d => if d = "" then "PMID:" ++ pmid else d
  | none => "PMID:" ++ pmid

/-- An eSummary result entry, restricted to the articleids field that the
pagination loop inspects: a list of (idtype, value) pairs, value optional
because Python id_obj.get("value") can be absent
(src/literature_flow.py lines 120-123). -/
structure ESummaryEntry where
  articleids : List (String × Option String)
deriving DecidableEq

/-- DOI extraction of the pagination loop (src/literature_flow.py lines
119-123): the first articleid whose idtype is "doi" supplies its value
(possibly None) and the scan stops. -/
def extract_doi (e : ESummaryEntry) : Option String :=
  match e.articleids.find? (fun p => p.1 = "doi") with
  | some p => p.2
  | none => none

/-!
## Smart pagination loop (src/literature_flow.py lines 61-143)

The loop keeps local state new_pmids, update_pmids, all_esummary_results,
current_retstart, current_fetch_size and page_count, and it runs while
len(new_pmids) < target and current_retstart < count and
page_count < max_pages.  Each iteration clamps the batch size to
min(current_fetch_size, count - current_retstart), fetches one eSummary page,
classifies every item of the page against the pre-built Notion index, advances
the offset by the batch size and sets the next fetch size to the constant 50.
A failed fetch (no result envelope) or an empty page stops the loop.  After
the loop, new_pmids is trimmed with new_pmids[:target] (line 142) before the
flow fetches abstracts or enriches anything.

The remote eSummary fetch is modelled as a function from (batch size, offset)
to an optional page, a page being the association of returned uids to their
result entries in order; none models a missing or malformed result envelope.
page_count is represented by the remaining fuel, initially max_pages.  A
fetchLog field records every issued fetch call for the page-schedule claims;
it is instrumentation and carries no behaviour.
-/

/-- One entry of the update_pmids accumulator: the dict
with keys PMID, DedupeKey and page_id built in src/literature_flow.py
line 128. -/
structure UpdateEntry where
  pmid : String
  dedupeKey : String
  pageId : String
deriving DecidableEq

/-- A record of one eSummary fetch call issued by the loop: the length of
new_pmids when the call was made, the offset (current_retstart), the
page-size policy value (current_fetch_size) and the clamped batch size
actually requested (this_batch_size). -/
structure FetchCall where
  newBefore : Nat
  offset : Nat
  sched : Nat
  size : Nat
deriving DecidableEq

/-- The mutable state of the smart pagination loop. -/
structure LoopState where
  newPmids : List String
  updatePmids : List UpdateEntry
  fetched : List (String × ESummaryEntry)
  retstart : Nat
  fetchSize : Nat
  fetchLog : List FetchCall
deriving DecidableEq

/-- Classification of one fetched page against the pre-built index
(src/literature_flow.py lines 110-130): each item is keyed by its
provisional dedupe key; an index hit goes to batch_update together with the
page handle, a miss goes to batch_new. -/
def classify_page (index : List (String × String)) :
    List (String × ESummaryEntry) → List String × List UpdateEntry
  | [] => ([], [])
  | (pmid, entry) :: rest =>
      let key := dedupe_key (extract_doi entry) pmid
      let acc := classify_page index rest
      match lookupStr key index with
      | some pid => (acc.1, { pmid := pmid, dedupeKey := key, pageId := pid } :: acc.2)
      | none => (pmid :: acc.1, acc.2)

/-- The pagination while-loop (src/literature_flow.py lines 78-139); the
fuel argument is max_pages - page_count. -/
def pagination_loop
    (fetchPage : Nat → Nat → Option (List (String × ESummaryEntry)))
    (index : List (String × String)) (target count : Nat) :
    Nat → LoopState → LoopState
  | 0, st => st
  | fuel + 1, st =>
      if st.newPmids.length < target ∧ st.retstart < count then
        let batchSize := min st.fetchSize (count - st.retstart)
        let st₁ := { st with fetchLog := st.fetchLog ++
          [{ newBefore := st.newPmids.length, offset := st.retstart,
             sched := st.fetchSize, size := batchSize }] }
        match fetchPage batchSize st.retstart with
        | none => st₁
        | some [] => st₁
        | some (item :: page) =>
            let batch := classify_page index (item :: page)
            pagination_loop fetchPage index target count fuel
              { newPmids := st.newPmids ++ batch.1
                updatePmids := st.updatePmids ++ batch.2
                fetched := st.fetched ++ (item :: page)
                retstart := st.retstart + batchSize
                fetchSize := 50
                fetchLog := st₁.fetchLog }
      else st

/-- The outcome of the smart pagination section of the flow. -/
structure SmartSearchResult where
  newPmids : List String
  newPmidsPreTrim : List String
  updatePmids : List UpdateEntry
  fetched : List (String × ESummaryEntry)
  fetchLog : List FetchCall

/-- The smart pagination section of literature_search_flow
(src/literature_flow.py lines 68-142): run the loop from the initial state
(offset 0, first fetch size target, max_pages 30 passed by the caller) and
trim new_pmids to the target count. -/
def smart_pagination
    (fetchPage : Nat → Nat → Option (List (String × ESummaryEntry)))
    (index : List (String × String)) (target count maxPages : Nat) :
    SmartSearchResult :=
  let st := pagination_loop fetchPage index target count maxPages
    { newPmids := [], updatePmids := [], fetched := [], retstart := 0,
      fetchSize := target, fetchLog := [] }
  { newPmids := st.newPmids.take target
    newPmidsPreTrim := st.newPmids
    updatePmids := st.updatePmids
    fetched := st.fetched
    fetchLog := st.fetchLog }

/-!
## Validator (src/modules/validation_tasks.py, validate_results)

count and ids come from the eSearch output; the historical median is the
configuration value HISTORICAL_MEDIAN (500, an integer, in
src/modules/config.py) and gold_set is GOLD_SET.  Python computes
drop_threshold = historical_median * 0.5 and jump_threshold =
historical_median * 2 and compares the integer count against them; for an
integer median both products and both comparisons are exact in floating
point, and count < m * 0.5 holds exactly when 2 * count < m while
count > m * 2 holds exactly when count > 2 * m, which is how the conditions
are embedded (the connection to the half / double phrasing is proved in the
claim theorem over the rationals).
-/

/-- Status computed by validate_results
(src/modules/validation_tasks.py lines 6-25). -/
def validate_results (count : Nat) (ids : List String)
    (historicalMedian : Int) (goldSet : List String) : String :=
  let foundGold := ids.any (fun i => decide (i ∈ goldSet))
  let goldMissing := decide (goldSet ≠ []) && !foundGold
  if count = 0 ∨ 2 * (count : Int) < historicalMedian ∨
      (count : Int) > 2 * historicalMedian ∨ goldMissing = true then "ALERT"
  else "OK"

/-- The only early stop of the flow after validation
(src/literature_flow.py lines 56-59): the flow returns if and only if the
validated count is zero; the validation status itself is not consulted. -/
def flow_stops_after_search (count : Nat) : Bool := count == 0

/-!
## Notion property builder (src/notion_utils.py)

Records are Python dicts; the fields read by build_notion_page_properties are
modelled as a structure.  An Option String field models a key that can be
missing (none) or hold a possibly falsy string; a plain String field models a
record.get(key, "") access whose default is the empty string.  PubDateParsed
is a datetime.date in Python, modelled by its isoformat string (date objects
are always truthy).  The LastChecked property holds
datetime.utcnow().isoformat(), passed in as the now argument.
RelevanceScore is an integer when present and FullTextUsed is coerced with
bool() by the source.
-/

/-- The record fields consumed by build_notion_page_properties. -/
structure NotionRecord where
  title : Option String
  doi : Option String
  pmid : Option String
  url : Option String
  journal : Option String
  pubDateParsed : Option String
  authors : Option String
  abstract : Option String
  meshHeadingList : String
  meshTerms : String
  majorMesh : String
  dedupeKey : String
  publicationTypes : String
  relevanceScore : Option Int
  pipelineConfidence : Option String
  fullTextUsed : Option Bool
  studySummary : Option String
  whyRelevant : Option String
  methods : Option String
  keyFindings : Option String
  dataTypes : Option String
  geoList : Option String
  sraProject : Option String
deriving DecidableEq

/-- The Notion property value shapes produced by the builder; richText models
a rich_text list whose entries are the text contents, multiSelect models a
multi_select list of names. -/
inductive NotionValue where
  | titleProp (content : String)
  | richText (contents : List String)
  | multiSelect (names : List String)
  | urlProp (u : Option String)
  | dateProp (start : String)
  | number (n : Int)
  | checkbox (b : Bool)
deriving DecidableEq

/-- Python a or b on optional strings: b when a is missing or empty. -/
def pyOrOpt (a b : Option String) : Option String :=
  match a with
  | some s => if s = "" then b else some s
  | none => b

/-- Python a or b with a string default. -/
def pyOrDefault (a : Option String) (b : String) : String :=
  match a with
  | some s => if s = "" then b else s
  | none => b

/-- Python truthiness of an optional string. -/
def optTruthy (a : Option String) : Bool :=
  match a with
  | some s => !(s = "")
  | none => false

/-- truncate_for_notion (src/notion_utils.py lines 12-25): empty string for a
falsy input, otherwise the first 2000 code points.  Every caller uses the
default limit of 2000. -/
def truncate_for_notion (text : Option String) : String :=
  match text with
  | none => ""
  | some t => if t = "" then "" else if t.data.length > 2000 then ⟨t.data.take 2000⟩ else t

/-- The multi-select name list built from a semicolon-joined field
(src/notion_utils.py lines 53-54): split on semicolons, keep non-blank parts
stripped, with commas replaced by " -". -/
def meshTermsList (s : String) : List String :=
  if s = "" then []
  else (pySplitChar s ';').filterMap (fun t =>
    if pyStrip t = "" then none else some (pyReplaceChar (pyStrip t) ',' (" -")))

/-- The multi-select name list built from the DataTypes field
(src/notion_utils.py line 101): semicolons folded to commas, split on commas,
non-blank parts stripped with commas replaced (no comma can remain after the
fold, the replace mirrors the source). -/
def dataTypesList (s : String) : List String :=
  (pySplitChar (pyReplaceChar s ';' (",")) ',').filterMap (fun t =>
    if pyStrip t = "" then none else some (pyReplaceChar (pyStrip t) ',' (" -")))

/-- An optional AI rich-text property: present only when the record key
exists and its value is truthy (src/notion_utils.py lines 88-98, 105-109). -/
def optionalRichText (name : String) (v : Option String) :
    List (String × NotionValue) :=
  if optTruthy v then [(name, NotionValue.richText [truncate_for_notion v])]
  else []

/-- build_notion_page_properties (src/notion_utils.py lines 28-117): the base
properties in insertion order, the conditional PubDate, the conditional
AI-generated properties, then the removal pass that pops every property whose
rich_text list is empty. -/
def build_notion_page_properties (now : String) (r : NotionRecord) :
    List (String × NotionValue) :=
  let title := pyOrOpt r.title r.pmid
  let props : List (String × NotionValue) :=
    [("Title", NotionValue.titleProp (pyOrDefault title ("Untitled"))),
     ("DOI", NotionValue.richText
        (if optTruthy r.doi then [truncate_for_notion r.doi] else [])),
     ("PMID", NotionValue.richText
        (if optTruthy r.pmid then [truncate_for_notion r.pmid] else [])),
     ("URL", NotionValue.urlProp r.url),
     ("Journal", NotionValue.richText
        (if optTruthy r.journal then [truncate_for_notion r.journal] else [])),
     ("Abstract", NotionValue.richText
        (if optTruthy r.abstract then [truncate_for_notion r.abstract] else [])),
     ("Authors", NotionValue.richText
        (if optTruthy r.authors then [truncate_for_notion r.authors] else [])),
     ("MeshHeadingList", NotionValue.richText
        (if !(r.meshHeadingList = "") then [truncate_for_notion (some r.meshHeadingList)] else [])),
     ("MeSH_Terms", NotionValue.multiSelect (meshTermsList r.meshTerms)),
     ("Major_MeSH", NotionValue.multiSelect (meshTermsList r.majorMesh)),
     ("DedupeKey", NotionValue.richText [truncate_for_notion (some r.dedupeKey)]),
     ("LastChecked", NotionValue.dateProp now),
     ("PublicationTypes", NotionValue.richText
        (if !(r.publicationTypes = "") then [truncate_for_notion (some r.publicationTypes)] else []))]
  let props := props ++
    (match r.pubDateParsed with
     | some d => [("PubDate", NotionValue.dateProp d)]
     | none => [])
  let props := props ++
    (match r.relevanceScore with
     | some n => [("RelevanceScore", NotionValue.number n)]
     | none => []) ++
    (match r.pipelineConfidence with
     | some c => [("PipelineConfidence", NotionValue.multiSelect [c])]
     | none => []) ++
    (match r.fullTextUsed with
     | some b => [("FullTextUsed", NotionValue.checkbox b)]
     | none => []) ++
    optionalRichText ("StudySummary") r.studySummary ++
    optionalRichText ("WhyRelevant") r.whyRelevant ++
    optionalRichText ("Methods") r.methods ++
    optionalRichText ("KeyFindings") r.keyFindings ++
    (if optTruthy r.dataTypes then
       (match r.dataTypes with
        | some s =>
            if dataTypesList s ≠ [] then
              [("DataTypes", NotionValue.multiSelect (dataTypesList s))]
            else []
        | none => [])
     else []) ++
    optionalRichText ("GEO_List") r.geoList ++
    optionalRichText ("SRA_Project") r.sraProject
  props.filter (fun kv =>
    match kv.2 with
    | NotionValue.richText [] => false
    | _ => true)

/-!
## JSON values and json.loads (used by src/modules/enrichment.py)

Python JSON values are embedded as the inductive Json below.  Numbers are
kept exactly as mantissa * 10 ^ exp10: Python parses integer literals to
arbitrary precision ints (exact, exp10 = 0) and literals with a fraction or
exponent to IEEE floats; this embedding is exact for every number the
embedded code paths compare (small integers), while float rounding of
non-integer literals is not modelled.  The NaN / Infinity / -Infinity constants
accepted by Python's decoder get their own constructors.  Object fields keep
insertion order and unique keys, as Python dicts do (a duplicated key in the
source text overwrites the earlier value in place).

The decoder below follows CPython's pure-Python json scanner with its
default arguments (strict mode): values in order string, object, array,
null, true, false, number, NaN, Infinity, -Infinity; strings reject raw
control characters and unknown escapes; numbers follow the regex
(-?(?:0|[1-9]\d*))(\.\d+)?([eE][-+]?\d+)?; trailing input after the value is
an error ("Extra data").  Unicode escapes combine surrogate pairs; a lone
surrogate, which Python would keep in the str, has no Lean Char counterpart
and is mapped through Char.ofNat's fallback (no claim exercises this).
Recursion is fuelled by the input length, which bounds the recursion depth
because every recursive call follows the consumption of at least one
character.
-/

/-- The double-quote character. -/
def quoteChar : Char := Char.ofNat 34

/-- The backslash character. -/
def backslashChar : Char := Char.ofNat 92

/-- The opening curly brace character. -/
def openBrace : Char := Char.ofNat 123

/-- The closing curly brace character. -/
def closeBrace : Char := Char.ofNat 125

/-- Embedded JSON (Python object) values; num m e denotes m * 10 ^ e. -/
inductive Json where
  | null
  | bool (b : Bool)
  | num (mantissa : Int) (exp10 : Int)
  | str (s : String)
  | arr (elems : List Json)
  | obj (fields : List (String × Json))
  | nan
  | inf (neg : Bool)

/-- Ten to a natural power, as an integer (structural, kernel-computable). -/
def tenPowInt : Nat → Int
  | 0 => 1
  | n + 1 => 10 * tenPowInt n

/-- Whitespace skipped by the JSON decoder (space, tab, newline, return). -/
def isJsonWs (c : Char) : Bool :=
  c = ' ' || c = Char.ofNat 9 || c = Char.ofNat 10 || c = Char.ofNat 13

/-- Skip JSON whitespace. -/
def jsonSkipWs : List Char → List Char
  | [] => []
  | c :: rest => if isJsonWs c then jsonSkipWs rest else c :: rest

/-- Hexadecimal digit value. -/
def hexVal (c : Char) : Option Nat :=
  if '0' ≤ c && c ≤ '9' then some (c.toNat - 48)
  else if 'a' ≤ c && c ≤ 'f' then some (c.toNat - 87)
  else if 'A' ≤ c && c ≤ 'F' then some (c.toNat - 55)
  else none

/-- Four hexadecimal digits of a \uXXXX escape. -/
def parseHex4 : List Char → Option (Nat × List Char)
  | a :: b :: c :: d :: rest =>
      match hexVal a, hexVal b, hexVal c, hexVal d with
      | some ha, some hb, some hc, some hd =>
          some (((ha * 16 + hb) * 16 + hc) * 16 + hd, rest)
      | _, _, _, _ => none
  | _ => none

/-- Decode the body of a JSON string after its opening quote; returns the
decoded characters and the input after the closing quote.  Mirrors
py_scanstring with strict=True. -/
def parseStringBody : Nat → List Char → Option (List Char × List Char)
  | 0, _ => none
  | _ + 1, [] => none
  | fuel + 1, c :: rest =>
      if c = quoteChar then some ([], rest)
      else if c = backslashChar then
        match rest with
        | [] => none
        | e :: r₂ =>
            if e = quoteChar ∨ e = backslashChar ∨ e = '/' then
              (parseStringBody fuel r₂).map (fun pr => (e :: pr.1, pr.2))
            else if e = 'b' then
              (parseStringBody fuel r₂).map (fun pr => (Char.ofNat 8 :: pr.1, pr.2))
            else if e = 'f' then
              (parseStringBody fuel r₂).map (fun pr => (Char.ofNat 12 :: pr.1, pr.2))
            else if e = 'n' then
              (parseStringBody fuel r₂).map (fun pr => (Char.ofNat 10 :: pr.1, pr.2))
            else if e = 'r' then
              (parseStringBody fuel r₂).map (fun pr => (Char.ofNat 13 :: pr.1, pr.2))
            else if e = 't' then
              (parseStringBody fuel r₂).map (fun pr => (Char.ofNat 9 :: pr.1, pr.2))
            else if e = 'u' then
              match parseHex4 r₂ with
              | none => none
              | some (v, r₃) =>
                  if 0xD800 ≤ v ∧ v ≤ 0xDBFF then
                    match r₃ with
                    | b :: u :: r₄ =>
                        if b = backslashChar ∧ u = 'u' then
                          match parseHex4 r₄ with
                          | some (w, r₅) =>
                              if 0xDC00 ≤ w ∧ w ≤ 0xDFFF then
                                (parseStringBody fuel r₅).map (fun pr =>
                                  (Char.ofNat (0x10000 + (v - 0xD800) * 1024 + (w - 0xDC00)) :: pr.1, pr.2))
                              else
                                (parseStringBody fuel r₃).map (fun pr =>
                                  (Char.ofNat v :: pr.1, pr.2))
                          | none =>
                              (parseStringBody fuel r₃).map (fun pr =>
                                (Char.ofNat v :: pr.1, pr.2))
                        else
                          (parseStringBody fuel r₃).map (fun pr =>
                            (Char.ofNat v :: pr.1, pr.2))
                    | _ =>
                        (parseStringBody fuel r₃).map (fun pr =>
                          (Char.ofNat v :: pr.1, pr.2))
                  else
                    (parseStringBody fuel r₃).map (fun pr =>
                      (Char.ofNat v :: pr.1, pr.2))
            else none
      else if c.toNat < 0x20 then none
      else (parseStringBody fuel rest).map (fun pr => (c :: pr.1, pr.2))

/-- Longest digit span at the front of the input. -/
def spanDigits : List Char → List Char × List Char
  | [] => ([], [])
  | c :: rest =>
      if c.isDigit then
        let pr := spanDigits rest
        (c :: pr.1, pr.2)
      else ([], c :: rest)

/-- Natural number denoted by a digit list. -/
def digitsToNat (l : List Char) : Nat :=
  l.foldl (fun n c => n * 10 + (c.toNat - 48)) 0

/-- Parse a JSON number literal following the decoder's NUMBER_RE.  A bare
minus sign, a missing integer part, a leading zero before further digits, a
dot without digits or an exponent marker without digits end the match early
or fail exactly as the regex does. -/
def parseNumber (cs : List Char) : Option (Json × List Char) :=
  let signSplit : Bool × List Char :=
    match cs with
    | c :: rest => if c = '-' then (true, rest) else (false, cs)
    | [] => (false, [])
  let neg := signSplit.1
  let cs₁ := signSplit.2
  match cs₁ with
  | [] => none
  | d :: tl =>
      if !d.isDigit then none
      else
        let intSplit : List Char × List Char :=
          if d = '0' then ([d], tl) else spanDigits cs₁
        let intDigits := intSplit.1
        let r₁ := intSplit.2
        let fracSplit : List Char × List Char :=
          match r₁ with
          | p :: pr =>
              if p = '.' then
                let sp := spanDigits pr
                if sp.1 = [] then ([], r₁) else sp
              else ([], r₁)
          | [] => ([], r₁)
        let fracDigits := fracSplit.1
        let r₂ := fracSplit.2
        let expSplit : (Option (Bool × List Char)) × List Char :=
          match r₂ with
          | e :: er =>
              if e = 'e' ∨ e = 'E' then
                let sgn : Bool × List Char :=
                  match er with
                  | s :: sr =>
                      if s = '+' then (false, sr)
                      else if s = '-' then (true, sr)
                      else (false, er)
                  | [] => (false, er)
                let sp := spanDigits sgn.2
                if sp.1 = [] then (none, r₂) else (some (sgn.1, sp.1), sp.2)
              else (none, r₂)
          | [] => (none, r₂)
        let mantAbs : Int :=
          (digitsToNat intDigits : Int) * tenPowInt fracDigits.length +
            (digitsToNat fracDigits : Int)
        let exp10 : Int :=
          (match expSplit.1 with
           | some (eneg, edigits) =>
               if eneg then -(digitsToNat edigits : Int) else (digitsToNat edigits : Int)
           | none => 0) - (fracDigits.length : Int)
        some (Json.num (if neg then -mantAbs else mantAbs) exp10, expSplit.2)

/-- Replace the value of a key in place or append it (Python dict assignment
applied in insertion order). -/
def insertPair (fs : List (String × Json)) (k : String) (v : Json) :
    List (String × Json) :=
  match fs with
  | [] => [(k, v)]
  | p :: rest => if p.1 = k then (k, v) :: rest else p :: insertPair rest k v

/-- Parser modes: a value, the members of an object (positioned at a key),
or the elements of an array (positioned at a value). -/
inductive PMode where
  | value
  | members (acc : List (String × Json))
  | elements (acc : List Json)

/-- Parser partial results, one per mode. -/
inductive POut where
  | val (j : Json)
  | fields (fs : List (String × Json))
  | elems (es : List Json)

/-- The JSON decoder core, fuelled.  In value mode it dispatches on the next
character in the decoder's order; members mode consumes key : value pairs
followed by a comma or a closing brace; elements mode consumes values
followed by a comma or a closing bracket. -/
def parseCore : Nat → PMode → List Char → Option (POut × List Char)
  | 0, _, _ => none
  | fuel + 1, PMode.value, cs =>
      match cs with
      | [] => none
      | c :: rest =>
          if c = quoteChar then
            (parseStringBody fuel rest).map (fun pr => (POut.val (Json.str ⟨pr.1⟩), pr.2))
          else if c = openBrace then
            match jsonSkipWs rest with
            | [] => none
            | d :: r₂ =>
                if d = closeBrace then some (POut.val (Json.obj []), r₂)
                else
                  match parseCore fuel (PMode.members []) (d :: r₂) with
                  | some (POut.fields fs, r₃) => some (POut.val (Json.obj fs), r₃)
                  | _ => none
          else if c = '[' then
            match jsonSkipWs rest with
            | [] => none
            | d :: r₂ =>
                if d = ']' then some (POut.val (Json.arr []), r₂)
                else
                  match parseCore fuel (PMode.elements []) (d :: r₂) with
                  | some (POut.elems es, r₃) => some (POut.val (Json.arr es), r₃)
                  | _ => none
          else if c = 'n' then
            match rest with
            | 'u' :: 'l' :: 'l' :: r₂ => some (POut.val Json.null, r₂)
            | _ => none
          else if c = 't' then
            match rest with
            | 'r' :: 'u' :: 'e' :: r₂ => some (POut.val (Json.bool true), r₂)
            | _ => none
          else if c = 'f' then
            match rest with
            | 'a' :: 'l' :: 's' :: 'e' :: r₂ => some (POut.val (Json.bool false), r₂)
            | _ => none
          else
            match parseNumber cs with
            | some (j, r₂) => some (POut.val j, r₂)
            | none =>
                if c = 'N' then
                  match rest with
                  | 'a' :: 'N' :: r₂ => some (POut.val Json.nan, r₂)
                  | _ => none
                else if c = 'I' then
                  match rest with
                  | 'n' :: 'f' :: 'i' :: 'n' :: 'i' :: 't' :: 'y' :: r₂ =>
                      some (POut.val (Json.inf false), r₂)
                  | _ => none
                else if c = '-' then
                  match rest with
                  | 'I' :: 'n' :: 'f' :: 'i' :: 'n' :: 'i' :: 't' :: 'y' :: r₂ =>
                      some (POut.val (Json.inf true), r₂)
                  | _ => none
                else none
  | fuel + 1, PMode.members acc, cs =>
      match cs with
      | [] => none
      | c :: rest =>
          if c = quoteChar then
            match parseStringBody fuel rest with
            | none => none
            | some (keyChars, r₂) =>
                match jsonSkipWs r₂ with
                | ':' :: r₃ =>
                    match parseCore fuel PMode.value (jsonSkipWs r₃) with
                    | some (POut.val v, r₄) =>
                        let acc₁ := insertPair acc ⟨keyChars⟩ v
                        match jsonSkipWs r₄ with
                        | ',' :: r₅ =>
                            match jsonSkipWs r₅ with
                            | [] => none
                            | d :: r₆ => parseCore fuel (PMode.members acc₁) (d :: r₆)
                        | d :: r₅ =>
                            if d = closeBrace then some (POut.fields acc₁, r₅) else none
                        | [] => none
                    | _ => none
                | _ => none
          else none
  | fuel + 1, PMode.elements acc, cs =>
      match parseCore fuel PMode.value cs with
      | some (POut.val v, r₂) =>
          match jsonSkipWs r₂ with
          | ',' :: r₃ => parseCore fuel (PMode.elements (acc ++ [v])) (jsonSkipWs r₃)
          | ']' :: r₃ => some (POut.elems (acc ++ [v]), r₃)
          | _ => none
      | _ => none

/-- Python json.loads: decode one value and require only whitespace after it
("Extra data" otherwise); none models a raised JSONDecodeError. -/
def jsonLoads (s : String) : Option Json :=
  match parseCore (s.data.length + 1) PMode.value (jsonSkipWs s.data) with
  | some (POut.val v, rest) => if jsonSkipWs rest = [] then some v else none
  | _ => none

/-- Python truthiness of an embedded JSON value (NaN and the infinities are
truthy floats). -/
def Json.truthy : Json → Bool
  | .null => false
  | .bool b => b
  | .num m _ => !(m == 0)
  | .str s => !(s = "")
  | .arr l => !l.isEmpty
  | .obj l => !l.isEmpty
  | .nan => true
  | .inf _ => true

/-- Python v == k for an integer k: numbers compare by value, booleans are
the integers 0 and 1, every other shape compares unequal (and NaN is unequal
to everything). -/
def Json.eqInt : Json → Int → Bool
  | .num m e, k =>
      if 0 ≤ e then m * tenPowInt e.toNat == k else m == k * tenPowInt (-e).toNat
  | .bool b, k => (if b then (1 : Int) else 0) == k
  | _, _ => false

/-- Python v >= k for an integer k; none models the TypeError raised when the
value is not a number or boolean. -/
def Json.geInt : Json → Int → Option Bool
  | .num m e, k =>
      some (if 0 ≤ e then decide (k ≤ m * tenPowInt e.toNat)
            else decide (k * tenPowInt (-e).toNat ≤ m))
  | .bool b, k => some (decide (k ≤ (if b then (1 : Int) else 0)))
  | .nan, _ => some false
  | .inf neg, _ => some !neg
  | _, _ => none

/-- The string payload of a JSON value; none models the AttributeError raised
when a str method is called on a non-string. -/
def Json.asStr : Json → Option String
  | .str s => some s
  | _ => none

/-- Remove the binding of a key (Python dict.pop side of pop(key, default)). -/
def eraseKey (k : String) : List (String × Json) → List (String × Json)
  | [] => []
  | p :: rest => if p.1 = k then rest else p :: eraseKey k rest

/-- Python dict.setdefault(key, default): keep an existing binding, append
the default otherwise. -/
def setdefaultKey (fs : List (String × Json)) (k : String) (v : Json) :
    List (String × Json) :=
  if (lookupStr k fs).isSome then fs else fs ++ [(k, v)]

/-- Python dict.get(key, default). -/
def getKeyD (fs : List (String × Json)) (k : String) (d : Json) : Json :=
  (lookupStr k fs).getD d

/-!
## Enrichment (src/modules/enrichment.py, gemini provider path)

The Gemini call is abstracted as an oracle from the input record to an
outcome: the raw response text, a google ResourceExhausted error, or any
other API failure (which the code deliberately lets crash the task).  The
prompt text itself only feeds the external model and is not modelled; the
candidate-parts fallback of _extract_json_text concerns the response object
shape and is likewise folded into the oracle's returned text.
-/

/-- Markdown fence stripping of _extract_json_text
(src/modules/enrichment.py lines 60-67) applied to the response text. -/
def extract_json_text (text : String) : String :=
  let raw := pyStrip text
  let raw :=
    if pyStartsWith raw ("```json") then pyStrip (pyDropLeft raw 7)
    else if pyStartsWith raw ("```") then pyStrip (pyDropLeft raw 3)
    else raw
  if pyEndsWith raw ("```") then pyStrip (pyDropRight raw 3) else raw

/-- The span matched by re.search of the lazy pattern brace .*? brace with
DOTALL (src/modules/enrichment.py line 88): from the first opening brace
that is followed by a closing brace, up to the first closing brace after it. -/
def stage2Span (raw : String) : Option String :=
  match raw.data.dropWhile (fun c => !(c = openBrace)) with
  | [] => none
  | c :: rest =>
      match rest.takeWhile (fun d => !(d = closeBrace)), rest.dropWhile (fun d => !(d = closeBrace)) with
      | _, [] => none
      | body, d :: _ => some ⟨c :: (body ++ [d])⟩

/-- Helper of stage3Span: scan for the position where the brace counter
returns to zero, returning the consumed characters. -/
def braceScan (depth : Nat) : List Char → Option (List Char)
  | [] => none
  | c :: rest =>
      if c = openBrace then (braceScan (depth + 1) rest).map (fun l => c :: l)
      else if c = closeBrace then
        match depth with
        | 0 => none
        | 1 => some [c]
        | d + 2 => (braceScan (d + 1) rest).map (fun l => c :: l)
      else (braceScan depth rest).map (fun l => c :: l)

/-- The balanced-brace extraction candidate of _load_response_json
(src/modules/enrichment.py lines 96-109): from the first opening brace to the
first position where the brace counter returns to zero; none when there is no
opening brace or the counter never returns to zero. -/
def stage3Span (raw : String) : Option String :=
  match raw.data.dropWhile (fun c => !(c = openBrace)) with
  | [] => none
  | c :: rest => (braceScan 1 rest).map (fun l => ⟨c :: l⟩)

/-- The truncation-repair text of _load_response_json
(src/modules/enrichment.py lines 117-129), for input whose stripped form does
not end with a closing brace: strip, close a dangling string when the quote
count is odd, then append one closing brace per unmatched opening brace. -/
def repair_text (raw : String) : String :=
  let repaired := pyStrip raw
  let repaired :=
    if charCount repaired quoteChar % 2 = 1 then repaired ++ "\"" else repaired
  repaired ++
    ⟨List.replicate (charCount repaired openBrace - charCount repaired closeBrace)
      closeBrace⟩

/-- _load_response_json (src/modules/enrichment.py lines 70-144): empty input
yields an empty dict; otherwise direct parse, then the lazy-regex candidate,
then the balanced-brace candidate, then — only when the stripped text does
not already end with a closing brace — the truncation repair, whose parsed
dict is marked with the __TRUNCATED__ key; none models the final raised
ValueError. -/
def load_response_json (raw : String) : Option Json :=
  if raw = "" then some (Json.obj [])
  else
    match jsonLoads raw with
    | some j => some j
    | none =>
        match (stage2Span raw).bind jsonLoads with
        | some j => some j
        | none =>
            match (stage3Span raw).bind jsonLoads with
            | some j => some j
            | none =>
                if pyEndsWith (pyStrip raw) ("\x7d") then none
                else
                  match jsonLoads (repair_text raw) with
                  | some (Json.obj fs) =>
                      some (Json.obj (insertPair fs ("__TRUNCATED__") (Json.bool true)))
                  | some j => some j
                  | none => none

/-- The record fields of a to-be-enriched paper that ai_enrich_records reads
or writes: the PMID (looked up, stripped) and the Title (marked on repair). -/
structure InRec where
  pmid : String
  title : String
deriving DecidableEq

/-- Outcome of one Gemini API call for a record. -/
inductive GeminiOutcome where
  | ok (respText : String)
  | quotaExhausted
  | apiFailure

/-- The exceptions that can escape ai_enrich_records: the re-raised
ResourceExhausted, any other API failure, the ValueError of
_load_response_json, and the TypeError / AttributeError raised by the
post-processing on unexpectedly typed fields.  The task deliberately has no
generic handler (src/modules/enrichment.py lines 428-430). -/
inductive EnrichAbort where
  | quotaExhausted
  | apiFailure
  | parseFailure
  | typeFailure
deriving DecidableEq

/-- KNOWN_DATA_TYPES (src/modules/enrichment.py lines 305-329).  The source
iterates a Python set whose order is unspecified; the listing order is used
here and no claim depends on it. -/
def KNOWN_DATA_TYPES : List String :=
  ["scrna-seq", "scatac-seq", "scdna", "spatial transcriptomics", "10x visium",
   "xenium", "cosmx", "geomx", "slide-seq", "h&e", "wgs", "wes", "bulk rna-seq",
   "chip-seq", "atac-seq", "cite-seq", "multiome", "multi-omics", "cnv",
   "snrna-seq", "snatac-seq", "merfish", "seqfish"]

/-- Controlled-vocabulary folding of the DataTypes string
(src/modules/enrichment.py lines 446-461): semicolons folded to commas, split
on commas, blank entries dropped, entries stripped and lower-cased, each
mapped to the first known vocabulary item it contains (verbatim otherwise),
deduplicated keeping first occurrences and joined with ", ". -/
def normalize_data_types (s : String) : String :=
  let rawTypes := (pySplitChar (pyReplaceChar s ';' (",")) ',').filterMap
    (fun t => if pyStrip t = "" then none else some (pyLower (pyStrip t)))
  let normalized := rawTypes.map (fun dt =>
    match KNOWN_DATA_TYPES.find? (fun known => pyContains dt known) with
    | some known => known
    | none => dt)
  joinSep (", ") (dedupFirst normalized)

/-- Title marking applied when the response needed truncation repair
(src/modules/enrichment.py lines 433-436). -/
def mark_truncated_title (title : String) : String :=
  if pyStartsWith title ("trct-title:") then title
  else if title = "" then "trct-title:"
  else "trct-title: " ++ title

/-- Score / rationale consistency repair (src/modules/enrichment.py lines
463-469): when the returned score equals 0, the rationale is lower-cased
(AttributeError on a non-string, modelled by the error case) and a rationale
that contains "relevant" but not "no abstract" lifts the score to the
constant 50; any non-zero score passes through unchanged and the rationale is
then never inspected. -/
def correct_relevance_score (score whyRelevant : Json) :
    Except EnrichAbort Json :=
  if score.eqInt 0 then
    match whyRelevant.asStr with
    | none => .error .typeFailure
    | some why =>
        if pyContains (pyLower why) ("relevant") &&
            !pyContains (pyLower why) ("no abstract") then
          .ok (Json.num 50 0)
        else .ok score
  else .ok score

/-- Strong keywords of the confidence heuristic
(src/modules/enrichment.py lines 480-489). -/
def strongKeywords : List String :=
  ["spatial", "visium", "xenium", "cosmx", "scrna", "snrna", "multiome",
   "multi-omics"]

/-- Deterministic confidence tagging (src/modules/enrichment.py lines
471-493) from the full-text flag, the (possibly corrected) score and the
lower-cased Methods / KeyFindings strings; none models the TypeError of a
non-numeric score comparison. -/
def pipeline_confidence (fullTextUsed : Bool) (score : Json)
    (methodsStr keyFindingsStr : String) : Option String :=
  if fullTextUsed then some ("High")
  else
    match score.geInt 80 with
    | none => none
    | some b =>
        if b then some ("Medium")
        else if strongKeywords.any (fun k => pyContains methodsStr k) ||
            strongKeywords.any (fun k => pyContains keyFindingsStr k) then
          some ("Medium")
        else some ("Low")

/-- The enrichment data attached to a record by rec.update
(src/modules/enrichment.py lines 499-511). -/
structure EnrichmentFields where
  relevanceScore : Json
  whyRelevant : Json
  studySummary : Json
  methods : Json
  keyFindings : Json
  dataTypes : Json
  group : Json
  pipelineConfidence : String
  fullTextUsed : Bool

/-- Post-processing of one record's parsed response
(src/modules/enrichment.py lines 432-512): pop the __TRUNCATED__ marker and
mark the title when it is truthy, fill the seven defaults, fold the DataTypes
vocabulary, repair the score, compute the confidence and build the update.
A non-dict parse result crashes on the pop call (typeFailure). -/
def postprocess_response (r : InRec) (fullTextUsed : Bool) (parsed : Json) :
    Except EnrichAbort (InRec × EnrichmentFields) :=
  match parsed with
  | Json.obj fields₀ =>
      let truncated := getKeyD fields₀ ("__TRUNCATED__") (Json.bool false)
      let fields₁ := eraseKey ("__TRUNCATED__") fields₀
      let r₁ := if truncated.truthy then
          { r with title := mark_truncated_title r.title } else r
      let fields₂ :=
        setdefaultKey (setdefaultKey (setdefaultKey (setdefaultKey
          (setdefaultKey (setdefaultKey (setdefaultKey fields₁
            ("RelevanceScore") (Json.num 0 0))
            ("WhyRelevant") (Json.str ("Analysis failed or returned empty.")))
            ("StudySummary") (Json.str ""))
            ("Methods") (Json.str ""))
            ("KeyFindings") (Json.str ""))
            ("DataTypes") (Json.str ""))
            ("Group") (Json.str "")
      match (getKeyD fields₂ ("DataTypes") (Json.str "")).asStr with
      | none => .error .typeFailure
      | some dtRaw =>
          let fields₃ := insertPair fields₂ ("DataTypes")
            (Json.str (normalize_data_types dtRaw))
          match correct_relevance_score
              (getKeyD fields₃ ("RelevanceScore") (Json.num 0 0))
              (getKeyD fields₃ ("WhyRelevant") (Json.str "")) with
          | .error e => .error e
          | .ok score =>
              match (getKeyD fields₃ ("Methods") (Json.str "")).asStr,
                  (getKeyD fields₃ ("KeyFindings") (Json.str "")).asStr with
              | some ms, some ks =>
                  match pipeline_confidence fullTextUsed score
                      (pyLower ms) (pyLower ks) with
                  | none => .error .typeFailure
                  | some confidence =>
                      .ok (r₁,
                        { relevanceScore := score
                          whyRelevant := getKeyD fields₃ ("WhyRelevant") (Json.str "")
                          studySummary := getKeyD fields₃ ("StudySummary") (Json.str "")
                          methods := getKeyD fields₃ ("Methods") (Json.str "")
                          keyFindings := getKeyD fields₃ ("KeyFindings") (Json.str "")
                          dataTypes := getKeyD fields₃ ("DataTypes") (Json.str "")
                          group := getKeyD fields₃ ("Group") (Json.str "")
                          pipelineConfidence := confidence
                          fullTextUsed := fullTextUsed })
              | _, _ => .error .typeFailure
  | _ => .error .typeFailure

/-- Whether full text is used for a record (src/modules/enrichment.py lines
340-347): the PMC map entry must exist and its full_text value must be
truthy; the map is abstracted to the optional full_text string per PMID. -/
def full_text_used (pmcFulltext : String → Option String) (pmid : String) :
    Bool :=
  match pmcFulltext pmid with
  | some t => !(t = "")
  | none => false

/-- One iteration of the enrichment loop for one record: call the oracle,
re-raise quota exhaustion and API failures, otherwise parse the response
text (ValueError propagates) and post-process it. -/
def enrich_step (oracle : InRec → GeminiOutcome)
    (pmcFulltext : String → Option String) (r : InRec) :
    Except EnrichAbort (InRec × EnrichmentFields) :=
  match oracle r with
  | .quotaExhausted => .error .quotaExhausted
  | .apiFailure => .error .apiFailure
  | .ok text =>
      match load_response_json (extract_json_text text) with
      | none => .error .parseFailure
      | some parsed =>
          postprocess_response r (full_text_used pmcFulltext (pyStrip r.pmid)) parsed

/-- The record loop of ai_enrich_records (src/modules/enrichment.py lines
338-515).  The first component lists the records for which an API call was
issued, in order; the second is the enriched list, or the exception that
escaped the loop (every record after the failing one is untouched and the
partial enriched list is lost, as the local variable is). -/
def enrich_loop (oracle : InRec → GeminiOutcome)
    (pmcFulltext : String → Option String) :
    List InRec → List InRec × Except EnrichAbort (List (InRec × EnrichmentFields))
  | [] => ([], .ok [])
  | r :: rest =>
      match enrich_step oracle pmcFulltext r with
      | .error e => ([r], .error e)
      | .ok out =>
          let acc := enrich_loop oracle pmcFulltext rest
          (r :: acc.1,
            match acc.2 with
            | .ok outs => .ok (out :: outs)
            | .error e => .error e)

/-- ai_enrich_records for the gemini provider
(src/modules/enrichment.py lines 271-515): with no API key the records are
returned unenriched (no call is made); otherwise the loop runs and enriched
records carry their enrichment data.  The Option on the fields distinguishes
never-enriched records from enriched ones, matching the dict keys that exist
only after enrichment. -/
def ai_enrich_records (googleApiKeySet : Bool)
    (oracle : InRec → GeminiOutcome) (pmcFulltext : String → Option String)
    (records : List InRec) :
    List InRec × Except EnrichAbort (List (InRec × Option EnrichmentFields)) :=
  if googleApiKeySet then
    let acc := enrich_loop oracle pmcFulltext records
    (acc.1,
      match acc.2 with
      | .ok outs => .ok (outs.map (fun o => (o.1, some o.2)))
      | .error e => .error e)
  else ([], .ok (records.map (fun r => (r, none))))

/-- What the flow does with the enrichment outcome
(src/literature_flow.py lines 190-206): on success every enriched record is
passed to notion_create_pages; a ResourceExhausted is caught and the flow
returns without any create call; any other exception propagates out of the
flow, also without a create call. -/
inductive FlowEnrichOutcome where
  | createdPages (enriched : List (InRec × Option EnrichmentFields))
  | abortedOnQuota
  | crashed

/-- The enrichment-and-create section of literature_search_flow
(src/literature_flow.py lines 190-206). -/
def flow_enrich_and_create (googleApiKeySet : Bool)
    (oracle : InRec → GeminiOutcome) (pmcFulltext : String → Option String)
    (toCreate : List InRec) : FlowEnrichOutcome :=
  match (ai_enrich_records googleApiKeySet oracle pmcFulltext toCreate).2 with
  | .ok enriched => .createdPages enriched
  | .error .quotaExhausted => .abortedOnQuota
  | .error _ => .crashed

/-- A property entry whose rich-text contents, if any, all come out of
truncate_for_notion. -/
def richOkP (kv : String × NotionValue) : Prop :=
  ∀ cs, kv.2 = NotionValue.richText cs →
    ∀ c ∈ cs, ∃ t : Option String, c = truncate_for_notion t

/-!
## Concrete inputs used by witnesses, counterexamples and scenario parts
-/

/-- A record whose every optional field is missing and every defaulted string
field is empty. -/
def emptyNotionRecord : NotionRecord :=
  { title := none, doi := none, pmid := none, url := none, journal := none,
    pubDateParsed := none, authors := none, abstract := none,
    meshHeadingList := "", meshTerms := "", majorMesh := "", dedupeKey := "",
    publicationTypes := "", relevanceScore := none, pipelineConfidence := none,
    fullTextUsed := none, studySummary := none, whyRelevant := none,
    methods := none, keyFindings := none, dataTypes := none, geoList := none,
    sraProject := none }

/-- A record carrying a DOI, as normalised records with a found DOI do. -/
def doiNotionRecord : NotionRecord :=
  { emptyNotionRecord with
    doi := some ("10.1/x")
    pmid := some ("12345")
    dedupeKey := "10.1/x" }

/-- A summary entry carrying the DOI D1. -/
def entryD1 : ESummaryEntry := { articleids := [("doi", some ("D1"))] }

/-- A summary entry without article ids. -/
def entryNoIds : ESummaryEntry := { articleids := [] }

/-- A summary entry carrying the DOI D3. -/
def entryD3 : ESummaryEntry := { articleids := [("doi", some ("D3"))] }

/-- A fetch function returning one page of three already-indexed items at
offset 0 and failing afterwards. -/
def allIndexedFetch : Nat → Nat → Option (List (String × ESummaryEntry)) :=
  fun _ off =>
    if off = 0 then some [("1", entryD1), ("2", entryNoIds), ("3", entryD3)]
    else none

/-- The knowledge-base index holding the three items served by
allIndexedFetch. -/
def allIndexedIndex : List (String × String) :=
  [("D1", "p1"), ("PMID:2", "p2"), ("D3", "p3")]

/-- A PMC full-text map with no entries. -/
def pmcFulltextNone : String → Option String := fun _ => none

/-- A classification response that is valid JSON with score 0 and a
rationale asserting relevance. -/
def zeroScoreResp : String :=
  "\x7b\"RelevanceScore\": 0, \"WhyRelevant\": \"Clearly relevant to prostate cancer.\"\x7d"

/-- An oracle answering every record with zeroScoreResp. -/
def oracleZeroScore : InRec → GeminiOutcome :=
  fun _ => GeminiOutcome.ok zeroScoreResp

/-- A classification response truncated in the middle of a value string. -/
def truncResp : String :=
  "\x7b\"RelevanceScore\": 85, \"WhyRelevant\": \"This study uses Visium on prostate"

/-- An oracle answering every record with the truncated response. -/
def oracleTrunc : InRec → GeminiOutcome := fun _ => GeminiOutcome.ok truncResp

/-- The record enriched in the concrete truncation scenario. -/
def recTrunc : InRec := { pmid := "777", title := "Original Title" }

/-- The record enriched in the concrete zero-score scenario. -/
def recZero : InRec := { pmid := "888", title := "Zero Score Paper" }

/-- A response truncated in the middle of a key string: closing the dangling
string and the brace yields text that is still not valid JSON. -/
def midKeyTruncResp : String := "\x7b\"WhyRelevant\": \"relevant\", \"Stu"

/-- An oracle answering the empty JSON object for every record. -/
def oracleEmptyObj : InRec → GeminiOutcome :=
  fun _ => GeminiOutcome.ok ("\x7b\x7d")

/-- An oracle succeeding with the empty object on PMID 1 and reporting quota
exhaustion on every other record. -/
def oracleQuotaAfterOne : InRec → GeminiOutcome :=
  fun r => if r.pmid = "1" then GeminiOutcome.ok ("\x7b\x7d")
    else GeminiOutcome.quotaExhausted

/-- Three records fed to the quota scenario. -/
def recOne : InRec := { pmid := "1", title := "A" }

/-- Second record of the quota scenario (the one hitting the quota). -/
def recTwo : InRec := { pmid := "2", title := "B" }

/-- Third record of the quota scenario (never reached). -/
def recThree : InRec := { pmid := "3", title := "C" }

/-!
## Theorems
-/

/-- C3 counterexample: a whitespace-only DOI is non-empty but whitespace, so
the claim demands the reserved-prefix key, yet the code keeps the whitespace
DOI as the dedupe key. -/
theorem C3_counterexample_whitespace_doi :
    pyStrip (" ") = "" ∧ dedupe_key (some (" ")) ("12345") = " " ∧
    dedupe_key (some (" ")) ("12345") ≠ "PMID:12345" := by
  refine ⟨rfl, rfl, ?_⟩
  decide

/-- C3 (amended): the dedupe key equals the DOI whenever the DOI is present
and non-empty (Python truthiness; a whitespace-only DOI is used verbatim),
and otherwise equals the reserved prefix PMID: concatenated with the PMID;
the computation is a pure function of the two fields, so records agreeing on
both fields always get the same key regardless of which fetch pass populated
the DOI. -/
theorem C3_dedupe_key_characterization (pmid : String) :
    dedupe_key none pmid = "PMID:" ++ pmid ∧
    dedupe_key (some ("")) pmid = "PMID:" ++ pmid ∧
    (∀ d : String, d ≠ "" → dedupe_key (some d) pmid = d) ∧
    (∀ (doi doi₂ : Option String) (pmid₂ : String), doi = doi₂ → pmid = pmid₂ →
      dedupe_key doi pmid = dedupe_key doi₂ pmid₂) := by
  refine ⟨rfl, rfl, fun d hd => ?_, fun doi doi₂ pmid₂ h₁ h₂ => by rw [h₁, h₂]⟩
  simp [dedupe_key, hd]

/-- C3 witness: the characterization evaluated on the scenario-D inputs of
the specification. -/
theorem C3_dedupe_key_characterization_witness :
    dedupe_key (some ("10.1/x")) ("12345") = "10.1/x" ∧
    dedupe_key none ("12345") = "PMID:" ++ "12345" :=
  ⟨(C3_dedupe_key_characterization ("12345")).2.2.1 ("10.1/x") (by decide),
   (C3_dedupe_key_characterization ("12345")).1⟩

/-- C2: the new-id list returned for processing is the target-length
truncation of the accumulated list — computed before any abstract fetching or
enrichment, which consume smart_pagination's output — and therefore never
exceeds the target count, even when the last page overshoots. -/
theorem C2_target_count_upper_bound
    (fetchPage : Nat → Nat → Option (List (String × ESummaryEntry)))
    (index : List (String × String)) (target count maxPages : Nat) :
    (smart_pagination fetchPage index target count maxPages).newPmids =
      (smart_pagination fetchPage index target count maxPages).newPmidsPreTrim.take target ∧
    (smart_pagination fetchPage index target count maxPages).newPmids.length ≤ target := by
  refine ⟨rfl, ?_⟩
  simp [smart_pagination]

/-- Half-threshold comparison: the integer rendering used by the embedding
agrees with the 0.5-times-median comparison over the rationals. -/
theorem int_half_iff (count : Nat) (m : Int) :
    2 * (count : Int) < m ↔ (count : ℚ) < (m : ℚ) * (1 / 2) := by
  rw [mul_one_div, lt_div_iff₀ (by norm_num : (0 : ℚ) < 2)]
  constructor
  · intro h
    have h2 : ((2 * (count : Int) : Int) : ℚ) < ((m : Int) : ℚ) := by
      exact_mod_cast h
    push_cast at h2
    linarith
  · intro h
    have h2 : ((2 * (count : Int) : Int) : ℚ) < ((m : Int) : ℚ) := by
      push_cast
      linarith
    exact_mod_cast h2

/-- Double-threshold comparison: the integer rendering used by the embedding
agrees with the 2-times-median comparison over the rationals. -/
theorem int_double_iff (count : Nat) (m : Int) :
    (count : Int) > 2 * m ↔ (count : ℚ) > (m : ℚ) * 2 := by
  constructor
  · intro h
    have h2 : ((2 * m : Int) : ℚ) < ((count : Int) : ℚ) := by exact_mod_cast h
    push_cast at h2
    linarith
  · intro h
    have h2 : ((2 * m : Int) : ℚ) < ((count : Int) : ℚ) := by
      push_cast
      linarith
    exact_mod_cast h2

/-- The decision condition of validate_results, rephrased with the
specification's half / double thresholds and canary wording. -/
theorem validate_cond_iff (count : Nat) (ids : List String) (m : Int)
    (gold : List String) :
    (count = 0 ∨ 2 * (count : Int) < m ∨ (count : Int) > 2 * m ∨
        (decide (gold ≠ []) && !(ids.any fun i => decide (i ∈ gold))) = true) ↔
      (count = 0 ∨ (count : ℚ) < (m : ℚ) * (1 / 2) ∨ (count : ℚ) > (m : ℚ) * 2 ∨
        (gold ≠ [] ∧ ∀ i ∈ ids, i ∉ gold)) := by
  rw [int_half_iff, int_double_iff]
  simp [List.any_eq_true]

/-- C9: the validator returns ALERT exactly when the count is zero, below
half the historical median, above double the historical median, or — the
canary set being non-empty — no canary identifier appears in the first page
of ids, and it returns OK otherwise; count 40 against median 500 yields
ALERT; and the flow's only early stop after validation fires on a zero count
alone, so an ALERT with a non-zero count never halts the pipeline by
itself. -/
theorem C9_validator_alert_characterization :
    (∀ (count : Nat) (ids : List String) (m : Int) (gold : List String),
      (validate_results count ids m gold = "ALERT" ↔
        (count = 0 ∨ (count : ℚ) < (m : ℚ) * (1 / 2) ∨ (count : ℚ) > (m : ℚ) * 2 ∨
          (gold ≠ [] ∧ ∀ i ∈ ids, i ∉ gold))) ∧
      (validate_results count ids m gold = "ALERT" ∨
        validate_results count ids m gold = "OK")) ∧
    validate_results 40 ["39750568"] 500 [] = "ALERT" ∧
    (∀ (count : Nat) (ids : List String) (m : Int) (gold : List String),
      validate_results count ids m gold = "ALERT" → count ≠ 0 →
      flow_stops_after_search count = false) := by
  refine ⟨fun count ids m gold => ⟨?_, ?_⟩, by decide, ?_⟩
  · rw [← validate_cond_iff]
    simp only [validate_results]
    split_ifs with h
    · exact iff_of_true rfl h
    · exact iff_of_false (by decide) h
  · simp only [validate_results]
    split_ifs
    · exact Or.inl rfl
    · exact Or.inr rfl
  · intro count ids m gold _ hcount
    simp [flow_stops_after_search, hcount]

/-- C9 witness: the characterization applied to the scenario-C numbers. -/
theorem C9_validator_alert_characterization_witness :
    validate_results 40 ["39750568"] 500 [] = "ALERT" ∧
    flow_stops_after_search 40 = false :=
  ⟨C9_validator_alert_characterization.2.1,
   C9_validator_alert_characterization.2.2 40 (["39750568"]) 500 []
     C9_validator_alert_characterization.2.1 (by decide)⟩

/-- C6 counterexample: for the record with every optional field missing and
every defaulted string empty, the generated properties still contain an
empty multi-select value for MeSH_Terms and a null URL value, so empty
shapes are emitted. -/
theorem C6_counterexample_empty_shapes :
    emptyNotionRecord.meshTerms = "" ∧ emptyNotionRecord.url = none ∧
    ("MeSH_Terms", NotionValue.multiSelect []) ∈
      build_notion_page_properties ("2026-01-01T00:00:00") emptyNotionRecord ∧
    ("URL", NotionValue.urlProp none) ∈
      build_notion_page_properties ("2026-01-01T00:00:00") emptyNotionRecord := by
  refine ⟨rfl, rfl, ?_, ?_⟩ <;> decide

/-- C6 (amended): the removal pass guarantees that no property of the
generated mapping carries an empty rich-text value — null or empty rich-text
backed fields are entirely absent — while empty multi-select values and a
null URL value can still be emitted (witnessed by the counterexample). -/
theorem C6_no_empty_rich_text (now : String) (r : NotionRecord) :
    ∀ kv ∈ build_notion_page_properties now r,
      kv.2 ≠ NotionValue.richText [] := by
  intro kv hkv hcontra
  have hf := (List.mem_filter.mp hkv).2
  rw [hcontra] at hf
  simp at hf

/-- C6 witness: the amended theorem applied to a concrete kept property of
the DOI-carrying record. -/
theorem C6_no_empty_rich_text_witness :
    ("DOI", NotionValue.richText ["10.1/x"]).2 ≠ NotionValue.richText [] :=
  C6_no_empty_rich_text ("2026-01-01T00:00:00") doiNotionRecord
    ("DOI", NotionValue.richText ["10.1/x"]) (by decide)

/-- Every string produced by truncate_for_notion is a prefix of the input
(the empty string for a missing input) of length at most 2000. -/
theorem truncate_for_notion_spec (s : Option String) :
    (truncate_for_notion s).length ≤ 2000 ∧
    (∃ u : String, (s.getD "") = truncate_for_notion s ++ u) := by
  match s with
  | none => exact ⟨by decide, ⟨"", rfl⟩⟩
  | some t =>
      by_cases h0 : t = ""
      · subst h0
        exact ⟨by decide, ⟨"", rfl⟩⟩
      · by_cases hlen : t.data.length > 2000
        · refine ⟨?_, ⟨⟨t.data.drop 2000⟩, ?_⟩⟩
          · simp only [truncate_for_notion, if_neg h0, if_pos hlen]
            show (t.data.take 2000).length ≤ 2000
            exact List.length_take_le 2000 t.data
          · simp only [truncate_for_notion, if_neg h0, if_pos hlen, Option.getD]
            show t = String.mk (t.data.take 2000 ++ t.data.drop 2000)
            rw [List.take_append_drop]
        · refine ⟨?_, ⟨"", ?_⟩⟩
          · simp only [truncate_for_notion, if_neg h0, if_neg hlen]
            show t.data.length ≤ 2000
            omega
          · simp only [truncate_for_notion, if_neg h0, if_neg hlen, Option.getD]
            show t = String.mk (t.data ++ [])
            rw [List.append_nil]

/-- Every property entry built by build_notion_page_properties draws all of
its rich-text contents from truncate_for_notion. -/
theorem build_rich_from_truncate (now : String) (r : NotionRecord) :
    ∀ kv ∈ build_notion_page_properties now r, richOkP kv := by
  have hleaf : ∀ (name : String) (v : Option String),
      ∀ kv ∈ optionalRichText name v, richOkP kv := by
    intro name v kv hkv
    unfold optionalRichText at hkv
    revert hkv
    split <;> intro hkv
    · rcases List.mem_singleton.mp hkv with rfl
      intro cs hcs c hc
      cases hcs
      rw [List.mem_singleton] at hc
      exact ⟨_, hc⟩
    · exact absurd hkv (List.not_mem_nil kv)
  have hmatchLeaf : ∀ kv : String × NotionValue,
      (∃ name n, kv = (name, NotionValue.multiSelect n)) ∨
      (∃ name n, kv = (name, NotionValue.number n)) ∨
      (∃ name n, kv = (name, NotionValue.checkbox n)) ∨
      (∃ name n, kv = (name, NotionValue.dateProp n)) → richOkP kv := by
    rintro kv (⟨name, n, rfl⟩ | ⟨name, n, rfl⟩ | ⟨name, n, rfl⟩ | ⟨name, n, rfl⟩) <;>
      (intro cs hcs; cases hcs)
  intro kv hkv
  simp only [build_notion_page_properties] at hkv
  have hmem := (List.mem_filter.mp hkv).1
  clear hkv
  rcases List.mem_append.mp hmem with h | h
  case inr => exact hleaf _ _ _ h
  rcases List.mem_append.mp h with h | h
  case inr => exact hleaf _ _ _ h
  rcases List.mem_append.mp h with h | h
  case inr =>
    revert h
    split <;> intro h
    · revert h
      split <;> intro h
      · revert h
        split <;> intro h
        · rcases List.mem_singleton.mp h with rfl
          exact hmatchLeaf _ (Or.inl ⟨_, _, rfl⟩)
        · exact absurd h (List.not_mem_nil kv)
      · exact absurd h (List.not_mem_nil kv)
    · exact absurd h (List.not_mem_nil kv)
  rcases List.mem_append.mp h with h | h
  case inr => exact hleaf _ _ _ h
  rcases List.mem_append.mp h with h | h
  case inr => exact hleaf _ _ _ h
  rcases List.mem_append.mp h with h | h
  case inr => exact hleaf _ _ _ h
  rcases List.mem_append.mp h with h | h
  case inr => exact hleaf _ _ _ h
  rcases List.mem_append.mp h with h | h
  case inr =>
    revert h
    split <;> intro h
    · rcases List.mem_singleton.mp h with rfl
      exact hmatchLeaf _ (Or.inr (Or.inr (Or.inl ⟨_, _, rfl⟩)))
    · exact absurd h (List.not_mem_nil kv)
  rcases List.mem_append.mp h with h | h
  case inr =>
    revert h
    split <;> intro h
    · rcases List.mem_singleton.mp h with rfl
      exact hmatchLeaf _ (Or.inl ⟨_, _, rfl⟩)
    · exact absurd h (List.not_mem_nil kv)
  rcases List.mem_append.mp h with h | h
  case inr =>
    revert h
    split <;> intro h
    · rcases List.mem_singleton.mp h with rfl
      exact hmatchLeaf _ (Or.inr (Or.inl ⟨_, _, rfl⟩))
    · exact absurd h (List.not_mem_nil kv)
  rcases List.mem_append.mp h with h | h
  case inr =>
    revert h
    split <;> intro h
    · rcases List.mem_singleton.mp h with rfl
      exact hmatchLeaf _ (Or.inr (Or.inr (Or.inr ⟨_, _, rfl⟩)))
    · exact absurd h (List.not_mem_nil kv)
  simp only [List.mem_cons, List.not_mem_nil, or_false] at h
  rcases h with rfl | rfl | rfl | rfl | rfl | rfl | rfl | rfl | rfl | rfl | rfl | rfl | rfl <;>
    (intro cs hcs c hc
     cases hcs
     all_goals
       (revert hc
        first
        | (split <;>
            (intro hc
             first
             | (rw [List.mem_singleton] at hc; exact ⟨_, hc⟩)
             | exact absurd hc (List.not_mem_nil c)))
        | (intro hc
           rw [List.mem_singleton] at hc
           exact ⟨_, hc⟩)))

/-- C10: every rich-text content written to the document store passes
through truncate_for_notion, which returns a prefix of its input (the empty
string for a missing input) of at most 2000 code points, so every rich-text
content in the generated properties has length at most 2000. -/
theorem C10_rich_text_truncated_to_2000 :
    (∀ s : Option String,
      (truncate_for_notion s).length ≤ 2000 ∧
      (∃ u : String, (s.getD "") = truncate_for_notion s ++ u) ∧
      truncate_for_notion none = "") ∧
    (∀ (now : String) (r : NotionRecord) (k : String) (cs : List String),
      (k, NotionValue.richText cs) ∈ build_notion_page_properties now r →
      ∀ c ∈ cs, (∃ t : Option String, c = truncate_for_notion t) ∧
        c.length ≤ 2000) := by
  constructor
  · intro s
    exact ⟨(truncate_for_notion_spec s).1, (truncate_for_notion_spec s).2, rfl⟩
  · intro now r k cs h c hc
    obtain ⟨t, rfl⟩ :=
      build_rich_from_truncate now r (k, NotionValue.richText cs) h cs rfl c hc
    exact ⟨⟨t, rfl⟩, (truncate_for_notion_spec t).1⟩

/-- C10 witness: the theorem applied to the DOI rich-text content of a
concrete record. -/
theorem C10_rich_text_truncated_to_2000_witness :
    (∃ t : Option String, "10.1/x" = truncate_for_notion t) ∧
    ("10.1/x" : String).length ≤ 2000 :=
  C10_rich_text_truncated_to_2000.2 ("2026-01-01T00:00:00") doiNotionRecord
    ("DOI") ["10.1/x"] (by decide) ("10.1/x") (by decide)

/-- The loop issues at most one fetch per unit of fuel. -/
theorem pagination_loop_log_length
    (fetchPage : Nat → Nat → Option (List (String × ESummaryEntry)))
    (index : List (String × String)) (target count : Nat) :
    ∀ (fuel : Nat) (st : LoopState),
      (pagination_loop fetchPage index target count fuel st).fetchLog.length ≤
        st.fetchLog.length + fuel := by
  intro fuel
  induction fuel with
  | zero => intro st; simp [pagination_loop]
  | succ n ih =>
      intro st
      simp only [pagination_loop]
      split
      · split
        · simp
        · simp
        · refine le_trans (ih _) ?_
          simp
          omega
      · omega

/-- Every fetch call is issued only while the accumulated new count is below
the target and the offset is below the search total, and its size is the
page-size policy value clamped to the remaining count. -/
theorem pagination_loop_log_inv
    (fetchPage : Nat → Nat → Option (List (String × ESummaryEntry)))
    (index : List (String × String)) (target count : Nat) :
    ∀ (fuel : Nat) (st : LoopState),
      (∀ c ∈ st.fetchLog, c.newBefore < target ∧ c.offset < count ∧
        c.size = min c.sched (count - c.offset)) →
      ∀ c ∈ (pagination_loop fetchPage index target count fuel st).fetchLog,
        c.newBefore < target ∧ c.offset < count ∧
        c.size = min c.sched (count - c.offset) := by
  intro fuel
  induction fuel with
  | zero => intro st h; simpa [pagination_loop] using h
  | succ n ih =>
      intro st h
      simp only [pagination_loop]
      split
      case isTrue hcond =>
        have hnew : ∀ c ∈ st.fetchLog ++
            [{ newBefore := st.newPmids.length, offset := st.retstart,
               sched := st.fetchSize,
               size := min st.fetchSize (count - st.retstart) }],
            c.newBefore < target ∧ c.offset < count ∧
            c.size = min c.sched (count - c.offset) := by
          intro c hc
          rcases List.mem_append.mp hc with hc | hc
          · exact h c hc
          · rcases List.mem_singleton.mp hc with rfl
            exact ⟨hcond.1, hcond.2, rfl⟩
        split
        · exact hnew
        · exact hnew
        · exact ih _ hnew
      case isFalse => exact h

/-- Once the offset is positive and the page-size policy is 50, every further
fetch call is issued at a positive offset with policy value 50. -/
theorem pagination_loop_sched50
    (fetchPage : Nat → Nat → Option (List (String × ESummaryEntry)))
    (index : List (String × String)) (target count : Nat) :
    ∀ (fuel : Nat) (st : LoopState), 0 < st.retstart → st.fetchSize = 50 →
      ∀ c ∈ (pagination_loop fetchPage index target count fuel st).fetchLog,
        c ∈ st.fetchLog ∨ (0 < c.offset ∧ c.sched = 50) := by
  intro fuel
  induction fuel with
  | zero => intro st _ _ c hc; exact Or.inl (by simpa [pagination_loop] using hc)
  | succ n ih =>
      intro st hret hsize
      simp only [pagination_loop]
      split
      case isTrue hcond =>
        have hentry : ∀ c ∈ st.fetchLog ++
            [{ newBefore := st.newPmids.length, offset := st.retstart,
               sched := st.fetchSize,
               size := min st.fetchSize (count - st.retstart) }],
            c ∈ st.fetchLog ∨ (0 < c.offset ∧ c.sched = 50) := by
          intro c hc
          rcases List.mem_append.mp hc with hc | hc
          · exact Or.inl hc
          · rcases List.mem_singleton.mp hc with rfl
            exact Or.inr ⟨hret, hsize⟩
        split
        · exact hentry
        · exact hentry
        · intro c hc
          rcases ih _ (by simp; omega) rfl c hc with hc' | hc'
          · exact hentry c hc'
          · exact Or.inr hc'
      case isFalse => exact fun c hc => Or.inl hc

/-- From the initial state (offset 0, empty log, policy value equal to the
target) every fetch call either is the first one, at offset 0 with policy
value target, or happens at a positive offset with policy value 50. -/
theorem pagination_loop_sched_shape
    (fetchPage : Nat → Nat → Option (List (String × ESummaryEntry)))
    (index : List (String × String)) (target count : Nat) :
    ∀ (fuel : Nat) (st : LoopState), st.retstart = 0 → st.fetchLog = [] →
      st.fetchSize = target →
      ∀ c ∈ (pagination_loop fetchPage index target count fuel st).fetchLog,
        (c.offset = 0 ∧ c.sched = target) ∨ (0 < c.offset ∧ c.sched = 50) := by
  intro fuel st hret hlog hsize
  cases fuel with
  | zero =>
      intro c hc
      rw [pagination_loop, hlog] at hc
      exact absurd hc (List.not_mem_nil c)
  | succ n =>
      simp only [pagination_loop]
      split
      case isTrue hcond =>
        have hentry : ∀ c ∈ st.fetchLog ++
            [{ newBefore := st.newPmids.length, offset := st.retstart,
               sched := st.fetchSize,
               size := min st.fetchSize (count - st.retstart) }],
            (c.offset = 0 ∧ c.sched = target) ∨ (0 < c.offset ∧ c.sched = 50) := by
          intro c hc
          rw [hlog] at hc
          rcases List.mem_singleton.mp hc with rfl
          exact Or.inl ⟨hret, hsize⟩
        split
        · exact hentry
        · exact hentry
        · intro c hc
          rcases pagination_loop_sched50 fetchPage index target count n _
              (by simp [hret]; omega) rfl c hc with hc' | hc'
          · exact hentry c hc'
          · exact Or.inr hc'
      case isFalse =>
        intro c hc
        rw [hlog] at hc
        exact absurd hc (List.not_mem_nil c)

/-- C4 counterexample: with target 3, every first-page item already indexed
and ample remaining results, the second page is requested with the fixed
size 50 — larger than the first page's size 3, refuting that every subsequent
page request uses a smaller size. -/
theorem C4_counterexample_second_page_larger :
    (smart_pagination allIndexedFetch allIndexedIndex 3 100 30).fetchLog.map
      FetchCall.size = [3, 50] ∧
    (smart_pagination allIndexedFetch allIndexedIndex 3 100 30).fetchLog.map
      FetchCall.sched = [3, 50] ∧
    ¬ 50 < 3 := by
  exact ⟨rfl, rfl, by omega⟩

/-- C4 (amended): the loop fetches only while the accumulated new count is
below the target, the offset is below the search total and fewer than
max_pages pages were fetched; each request size is the page-size policy value
clamped to the remaining count, so it never exceeds total minus offset; the
first request uses policy value target and every subsequent request uses the
fixed policy value 50 — which is smaller than the first page only when the
target exceeds 50. -/
theorem C4_pagination_schedule
    (fetchPage : Nat → Nat → Option (List (String × ESummaryEntry)))
    (index : List (String × String)) (target count maxPages : Nat) :
    (smart_pagination fetchPage index target count maxPages).fetchLog.length ≤
      maxPages ∧
    (∀ c ∈ (smart_pagination fetchPage index target count maxPages).fetchLog,
      c.newBefore < target ∧ c.offset < count ∧
      c.size = min c.sched (count - c.offset) ∧ c.size ≤ count - c.offset) ∧
    (∀ c ∈ (smart_pagination fetchPage index target count maxPages).fetchLog,
      (c.offset = 0 ∧ c.sched = target) ∨ (0 < c.offset ∧ c.sched = 50)) := by
  refine ⟨?_, fun c hc => ?_, fun c hc => ?_⟩
  · simpa [smart_pagination] using
      pagination_loop_log_length fetchPage index target count maxPages
        { newPmids := [], updatePmids := [], fetched := [], retstart := 0,
          fetchSize := target, fetchLog := [] }
  · have h := pagination_loop_log_inv fetchPage index target count maxPages
      { newPmids := [], updatePmids := [], fetched := [], retstart := 0,
        fetchSize := target, fetchLog := [] }
      (by intro c hc; exact absurd hc (List.not_mem_nil c)) c hc
    exact ⟨h.1, h.2.1, h.2.2, h.2.2 ▸ Nat.min_le_right _ _⟩
  · exact pagination_loop_sched_shape fetchPage index target count maxPages
      { newPmids := [], updatePmids := [], fetched := [], retstart := 0,
        fetchSize := target, fetchLog := [] } rfl rfl rfl c hc

/-- C4 witness: the schedule theorem applied to the two logged calls of the
concrete all-indexed run. -/
theorem C4_pagination_schedule_witness :
    (({ newBefore := 0, offset := 0, sched := 3, size := 3 } : FetchCall).newBefore < 3 ∧
      ({ newBefore := 0, offset := 0, sched := 3, size := 3 } : FetchCall).offset < 100 ∧
      ({ newBefore := 0, offset := 0, sched := 3, size := 3 } : FetchCall).size =
        min 3 (100 - 0) ∧
      ({ newBefore := 0, offset := 0, sched := 3, size := 3 } : FetchCall).size ≤ 100 - 0) ∧
    ((({ newBefore := 0, offset := 3, sched := 50, size := 50 } : FetchCall).offset = 0 ∧
        ({ newBefore := 0, offset := 3, sched := 50, size := 50 } : FetchCall).sched = 3) ∨
      (0 < ({ newBefore := 0, offset := 3, sched := 50, size := 50 } : FetchCall).offset ∧
        ({ newBefore := 0, offset := 3, sched := 50, size := 50 } : FetchCall).sched = 50)) :=
  ⟨(C4_pagination_schedule allIndexedFetch allIndexedIndex 3 100 30).2.1
      { newBefore := 0, offset := 0, sched := 3, size := 3 } (by decide),
   (C4_pagination_schedule allIndexedFetch allIndexedIndex 3 100 30).2.2
      { newBefore := 0, offset := 3, sched := 50, size := 50 } (by decide)⟩

/-- Every id put in a page's batch_new comes from a page item whose
provisional dedupe key misses the index. -/
theorem classify_page_new_mem (index : List (String × String))
    (page : List (String × ESummaryEntry)) :
    ∀ p ∈ (classify_page index page).1,
      ∃ e, (p, e) ∈ page ∧
        lookupStr (dedupe_key (extract_doi e) p) index = none := by
  induction page with
  | nil => intro p hp; exact absurd hp (List.not_mem_nil p)
  | cons item rest ih =>
      intro p hp
      obtain ⟨pmid, entry⟩ := item
      simp only [classify_page] at hp
      revert hp
      split
      case h_1 pid heq =>
        intro hp
        obtain ⟨e, he, hnone⟩ := ih p hp
        exact ⟨e, List.mem_cons_of_mem _ he, hnone⟩
      case h_2 heq =>
        intro hp
        rcases List.mem_cons.mp hp with rfl | hp
        · exact ⟨entry, List.mem_cons_self _ _, heq⟩
        · obtain ⟨e, he, hnone⟩ := ih p hp
          exact ⟨e, List.mem_cons_of_mem _ he, hnone⟩

/-- Every page item whose provisional dedupe key hits the index contributes
its update entry, with the page handle from the index, to batch_update. -/
theorem classify_page_update_mem (index : List (String × String))
    (page : List (String × ESummaryEntry)) :
    ∀ (p : String) (e : ESummaryEntry) (pid : String), (p, e) ∈ page →
      lookupStr (dedupe_key (extract_doi e) p) index = some pid →
      ({ pmid := p, dedupeKey := dedupe_key (extract_doi e) p,
         pageId := pid } : UpdateEntry) ∈ (classify_page index page).2 := by
  induction page with
  | nil => intro p e pid hp; exact absurd hp (List.not_mem_nil _)
  | cons item rest ih =>
      intro p e pid hp hsome
      obtain ⟨pmid, entry⟩ := item
      rcases List.mem_cons.mp hp with heq | hp
      · obtain ⟨h1, h2⟩ := Prod.mk.injEq .. ▸ heq
        subst h1; subst h2
        simp only [classify_page]
        split
        case h_1 pid' heq' =>
          rw [hsome] at heq'
          rcases Option.some.injEq .. ▸ heq' with rfl
          exact List.mem_cons_self _ _
        case h_2 heq' => rw [hsome] at heq'; cases heq'
      · have hmem := ih p e pid hp hsome
        simp only [classify_page]
        split
        · exact List.mem_cons_of_mem _ hmem
        · exact hmem

/-- Loop invariant: every accumulated new id was fetched with a provisional
dedupe key missing from the index. -/
theorem pagination_loop_new_inv
    (fetchPage : Nat → Nat → Option (List (String × ESummaryEntry)))
    (index : List (String × String)) (target count : Nat) :
    ∀ (fuel : Nat) (st : LoopState),
      (∀ p ∈ st.newPmids, ∃ e, (p, e) ∈ st.fetched ∧
        lookupStr (dedupe_key (extract_doi e) p) index = none) →
      ∀ p ∈ (pagination_loop fetchPage index target count fuel st).newPmids,
        ∃ e, (p, e) ∈ (pagination_loop fetchPage index target count fuel st).fetched ∧
          lookupStr (dedupe_key (extract_doi e) p) index = none := by
  intro fuel
  induction fuel with
  | zero => intro st h; simpa [pagination_loop] using h
  | succ n ih =>
      intro st h
      simp only [pagination_loop]
      split
      case isTrue hcond =>
        split
        · exact h
        · exact h
        · apply ih
          intro p hp
          rcases List.mem_append.mp hp with hp | hp
          · obtain ⟨e, he, hnone⟩ := h p hp
            exact ⟨e, List.mem_append_left _ he, hnone⟩
          · obtain ⟨e, he, hnone⟩ := classify_page_new_mem index _ p hp
            exact ⟨e, List.mem_append_right _ he, hnone⟩
      case isFalse => exact h

/-- Loop invariant: every fetched item whose provisional dedupe key hits the
index has its update entry, with the page handle from the index, in the
accumulated update list. -/
theorem pagination_loop_update_inv
    (fetchPage : Nat → Nat → Option (List (String × ESummaryEntry)))
    (index : List (String × String)) (target count : Nat) :
    ∀ (fuel : Nat) (st : LoopState),
      (∀ (p : String) (e : ESummaryEntry) (pid : String), (p, e) ∈ st.fetched →
        lookupStr (dedupe_key (extract_doi e) p) index = some pid →
        ({ pmid := p, dedupeKey := dedupe_key (extract_doi e) p,
           pageId := pid } : UpdateEntry) ∈ st.updatePmids) →
      ∀ (p : String) (e : ESummaryEntry) (pid : String),
        (p, e) ∈ (pagination_loop fetchPage index target count fuel st).fetched →
        lookupStr (dedupe_key (extract_doi e) p) index = some pid →
        ({ pmid := p, dedupeKey := dedupe_key (extract_doi e) p,
           pageId := pid } : UpdateEntry) ∈
          (pagination_loop fetchPage index target count fuel st).updatePmids := by
  intro fuel
  induction fuel with
  | zero => intro st h; simpa [pagination_loop] using h
  | succ n ih =>
      intro st h
      simp only [pagination_loop]
      split
      case isTrue hcond =>
        split
        · exact h
        · exact h
        · apply ih
          intro p e pid hp hsome
          rcases List.mem_append.mp hp with hp | hp
          · exact List.mem_append_left _ (h p e pid hp hsome)
          · exact List.mem_append_right _
              (classify_page_update_mem index _ p e pid hp hsome)
      case isFalse => exact h

/-- C1: an item fetched during the pagination loop whose dedupe key (DOI
from the summary if present, else the PMID: prefixed key) is in the
pre-built index never appears in new_pmids — provided every fetch of that id
carried an indexed key — and its update entry, with the page handle taken
from the index, is appended to update_pmids. -/
theorem C1_indexed_items_never_new
    (fetchPage : Nat → Nat → Option (List (String × ESummaryEntry)))
    (index : List (String × String)) (target count maxPages : Nat) (p : String)
    (h : ∀ e, (p, e) ∈ (smart_pagination fetchPage index target count maxPages).fetched →
      (lookupStr (dedupe_key (extract_doi e) p) index).isSome) :
    p ∉ (smart_pagination fetchPage index target count maxPages).newPmids ∧
    (∀ (q : String) (e : ESummaryEntry) (pid : String),
      (q, e) ∈ (smart_pagination fetchPage index target count maxPages).fetched →
      lookupStr (dedupe_key (extract_doi e) q) index = some pid →
      ({ pmid := q, dedupeKey := dedupe_key (extract_doi e) q,
         pageId := pid } : UpdateEntry) ∈
        (smart_pagination fetchPage index target count maxPages).updatePmids) := by
  constructor
  · intro hp
    have hp' : p ∈ (pagination_loop fetchPage index target count maxPages
        { newPmids := [], updatePmids := [], fetched := [], retstart := 0,
          fetchSize := target, fetchLog := [] }).newPmids :=
      List.take_subset target _ hp
    obtain ⟨e, he, hnone⟩ := pagination_loop_new_inv fetchPage index target count
      maxPages _ (by intro q hq; exact absurd hq (List.not_mem_nil q)) p hp'
    have := h e he
    rw [hnone] at this
    cases this
  · intro q e pid hq hsome
    exact pagination_loop_update_inv fetchPage index target count maxPages _
      (by intro a b c hab; exact absurd hab (List.not_mem_nil _)) q e pid hq hsome

/-- C1 witness: the theorem applied to the concrete all-indexed run, where
the item with PMID 1 carries DOI D1 held by the index. -/
theorem C1_indexed_items_never_new_witness :
    "1" ∉ (smart_pagination allIndexedFetch allIndexedIndex 3 100 30).newPmids ∧
    ({ pmid := "1", dedupeKey := dedupe_key (extract_doi entryD1) "1",
       pageId := "p1" } : UpdateEntry) ∈
      (smart_pagination allIndexedFetch allIndexedIndex 3 100 30).updatePmids :=
  ⟨(C1_indexed_items_never_new allIndexedFetch allIndexedIndex 3 100 30 "1"
      (by
        intro e he
        have he' : ("1", e) ∈
            [("1", entryD1), ("2", entryNoIds), ("3", entryD3)] := he
        simp only [List.mem_cons, List.not_mem_nil, or_false] at he'
        rcases he' with h | h | h
        · injection h with h1 h2; subst h2; decide
        · injection h with h1 h2; exact absurd h1 (by decide)
        · injection h with h1 h2; exact absurd h1 (by decide))).1,
   (C1_indexed_items_never_new allIndexedFetch allIndexedIndex 3 100 30 "1"
      (by
        intro e he
        have he' : ("1", e) ∈
            [("1", entryD1), ("2", entryNoIds), ("3", entryD3)] := he
        simp only [List.mem_cons, List.not_mem_nil, or_false] at he'
        rcases he' with h | h | h
        · injection h with h1 h2; subst h2; decide
        · injection h with h1 h2; exact absurd h1 (by decide)
        · injection h with h1 h2; exact absurd h1 (by decide))).2
      "1" entryD1 "p1" (by decide) (by decide)⟩

/-- When every record before r enriches successfully and r's API call hits
quota exhaustion, the loop calls the API for exactly the prefix up to r and
re-raises the quota error. -/
theorem enrich_loop_quota (oracle : InRec → GeminiOutcome)
    (pmcFulltext : String → Option String) :
    ∀ (pre : List InRec) (r : InRec) (post : List InRec),
      (∀ p ∈ pre, ∃ out, enrich_step oracle pmcFulltext p = .ok out) →
      oracle r = GeminiOutcome.quotaExhausted →
      enrich_loop oracle pmcFulltext (pre ++ r :: post) =
        (pre ++ [r], .error .quotaExhausted) := by
  intro pre
  induction pre with
  | nil =>
      intro r post _ hq
      simp only [List.nil_append, enrich_loop, enrich_step, hq]
  | cons p pre' ih =>
      intro r post hpre hq
      obtain ⟨out, hout⟩ := hpre p (List.mem_cons_self _ _)
      have hrest := ih r post
        (fun q hq' => hpre q (List.mem_cons_of_mem _ hq')) hq
      simp only [List.cons_append, enrich_loop, hout, List.append_eq, hrest]

/-- C5: if the classification service reports quota exhaustion on some record
of the batch (every earlier record having enriched normally), the exception
escapes ai_enrich_records at once — the API is called for no record after
that one and no enriched output is produced — and the flow catches exactly
this exception and returns without issuing any create call for the batch. -/
theorem C5_quota_aborts_run (oracle : InRec → GeminiOutcome)
    (pmcFulltext : String → Option String) (pre : List InRec) (r : InRec)
    (post : List InRec)
    (hpre : ∀ p ∈ pre, ∃ out, enrich_step oracle pmcFulltext p = .ok out)
    (hq : oracle r = GeminiOutcome.quotaExhausted) :
    (ai_enrich_records true oracle pmcFulltext (pre ++ r :: post)).1 =
      pre ++ [r] ∧
    (ai_enrich_records true oracle pmcFulltext (pre ++ r :: post)).2 =
      .error .quotaExhausted ∧
    flow_enrich_and_create true oracle pmcFulltext (pre ++ r :: post) =
      .abortedOnQuota := by
  have hloop := enrich_loop_quota oracle pmcFulltext pre r post hpre hq
  refine ⟨?_, ?_, ?_⟩
  · simp only [ai_enrich_records, if_pos, hloop]
  · simp only [ai_enrich_records, if_pos, hloop]
  · simp only [flow_enrich_and_create, ai_enrich_records, if_pos, hloop]

/-- C5 witness: the theorem applied to a concrete batch whose second record
hits the quota. -/
theorem C5_quota_aborts_run_witness :
    (ai_enrich_records true oracleQuotaAfterOne pmcFulltextNone
      ([recOne] ++ recTwo :: [recThree])).1 = [recOne] ++ [recTwo] ∧
    (ai_enrich_records true oracleQuotaAfterOne pmcFulltextNone
      ([recOne] ++ recTwo :: [recThree])).2 = .error .quotaExhausted ∧
    flow_enrich_and_create true oracleQuotaAfterOne pmcFulltextNone
      ([recOne] ++ recTwo :: [recThree]) = .abortedOnQuota :=
  C5_quota_aborts_run oracleQuotaAfterOne pmcFulltextNone [recOne] recTwo
    [recThree]
    (by
      intro p hp
      have hp' : p ∈ [recOne] := hp
      simp only [List.mem_singleton] at hp'
      subst hp'
      exact ⟨_, rfl⟩)
    rfl

/-- C8: whenever the model returns a relevance score equal to 0 while the
rationale string contains an affirmative-relevance signal and does not claim
that no abstract text was available, the consistency repair emits the fixed
floor score 50 — never 0; and the concrete zero-score response flows through
ai_enrich_records to an emitted score of 50. -/
theorem C8_zero_score_floor (score : Json) (why : String)
    (h₀ : score.eqInt 0 = true)
    (h₁ : pyContains (pyLower why) ("relevant") = true)
    (h₂ : pyContains (pyLower why) ("no abstract") = false) :
    correct_relevance_score score (Json.str why) = .ok (Json.num 50 0) ∧
    (Json.num 50 0).eqInt 0 = false ∧
    ((ai_enrich_records true oracleZeroScore pmcFulltextNone [recZero]).2.map
      (fun l => l.map (fun o => o.2.map (fun f => f.relevanceScore.eqInt 50)))) =
      .ok [some true] := by
  refine ⟨?_, by decide, rfl⟩
  simp [correct_relevance_score, Json.asStr, h₀, h₁, h₂]

/-- C8 witness: the repair applied to the concrete zero score and affirming
rationale. -/
theorem C8_zero_score_floor_witness :
    correct_relevance_score (Json.num 0 0)
      (Json.str ("Clearly relevant to prostate cancer.")) =
      .ok (Json.num 50 0) :=
  (C8_zero_score_floor (Json.num 0 0) ("Clearly relevant to prostate cancer.")
    (by decide) (by decide) (by decide)).1

/-- C7 counterexample: a classification response truncated in the middle of a
key string (odd quote count, no closing brace, all three earlier parse
attempts fail) still raises: closing the dangling string and the brace yields
invalid JSON, so the loader raises instead of returning a repaired object. -/
theorem C7_counterexample_mid_key_truncation :
    charCount midKeyTruncResp quoteChar % 2 = 1 ∧
    jsonLoads midKeyTruncResp = none ∧
    stage2Span midKeyTruncResp = none ∧
    stage3Span midKeyTruncResp = none ∧
    pyEndsWith (pyStrip midKeyTruncResp) ("\x7d") = false ∧
    load_response_json midKeyTruncResp = none :=
  ⟨rfl, rfl, rfl, rfl, rfl, rfl⟩

set_option maxRecDepth 8000 in
/-- C7 (amended): when the direct parse, the lazy-regex extraction and the
balanced-brace extraction of a non-empty response all fail and the stripped
text does not end with a closing brace, the loader builds the repair text by
closing the dangling string and the unbalanced braces; provided that repaired
text parses to an object (as it does when the truncation cut a value string),
the loader returns it with the __TRUNCATED__ marker — and the enriched record
of the concrete truncated response comes out with the repair-marked title
instead of the enrichment raising.  When even the repaired text is invalid
(for example after a truncation inside a key string) the loader raises. -/
theorem C7_truncation_repair (raw : String) (fs : List (String × Json))
    (h₀ : raw ≠ "")
    (h₁ : jsonLoads raw = none)
    (h₂ : (stage2Span raw).bind jsonLoads = none)
    (h₃ : (stage3Span raw).bind jsonLoads = none)
    (h₄ : pyEndsWith (pyStrip raw) ("\x7d") = false)
    (h₅ : jsonLoads (repair_text raw) = some (Json.obj fs)) :
    load_response_json raw =
      some (Json.obj (insertPair fs ("__TRUNCATED__") (Json.bool true))) ∧
    ((ai_enrich_records true oracleTrunc pmcFulltextNone [recTrunc]).2.map
      (fun l => l.map (fun o => o.1.title))) =
      .ok ["trct-title: Original Title"] := by
  refine ⟨?_, rfl⟩
  simp [load_response_json, h₀, h₁, h₂, h₃, h₄, h₅]

set_option maxRecDepth 8000 in
/-- C7 witness: the amended theorem applied to the concrete response
truncated inside a value string. -/
theorem C7_truncation_repair_witness :
    load_response_json truncResp =
      some (Json.obj
        [("RelevanceScore", Json.num 85 0),
         ("WhyRelevant", Json.str ("This study uses Visium on prostate")),
         ("__TRUNCATED__", Json.bool true)]) :=
  (C7_truncation_repair truncResp
    [("RelevanceScore", Json.num 85 0),
     ("WhyRelevant", Json.str ("This study uses Visium on prostate"))]
    (by decide) rfl rfl rfl rfl rfl).1
